import Mathlib

/-!
Shallow embedding of `src/seven_segment.c`, a Linux character-device driver
for a single-digit seven-segment display on a Raspberry Pi.

Modelling choices:
- Bytes are `Nat` values below 256; the C `char` register `digit_to_display`
  is modelled as an unsigned char (the default on the ARM target), so every
  store into it goes through `uchar`, which reduces an `Int` modulo 256.
- The user-space byte transport (`copy_from_user`, `put_user`) is modelled
  by explicit success oracles: a Bool for the single `copy_from_user` call in
  `seven_segment_write`, and a per-offset `Nat → Bool` oracle for the
  `put_user` loop in `seven_segment_read`.
- The hardware actuator `display_on_screen` (declared in the missing header
  `seven_segment.h`, out of scope per the spec) is recorded as an event: each
  operation returns the list of buffers it passed to `display_on_screen`.
- Kernel registration calls in `seven_segment_init` / `seven_segment_exit`
  (`alloc_chrdev_region`, `class_register`, `kmalloc`, `cdev_add`,
  `device_create`, and their release counterparts) are modelled by a resource
  ledger `KernelState` plus a trace of `Action`s in program order; each
  fallible call gets a success oracle in `InitEnv`.
-/

namespace SevenSegment

/-- `USE_NUMBER_OF_DIGITS` from the source: size of the scratch buffer
`message` allocated at line 223 (`kmalloc(USE_NUMBER_OF_DIGITS, GFP_KERNEL)`). -/
def USE_NUMBER_OF_DIGITS : Nat := 1

/-- Truncation of an `Int` to an unsigned `char` value, as performed by the C
assignments into the `char digit_to_display` field. -/
def uchar (i : Int) : Nat := (i % 256).toNat

/-- `struct seven_segment_dev`: only the digit register matters to the spec;
the embedded `struct cdev` is registration boilerplate tracked in
`KernelState` instead. -/
structure SevenSegmentDev where
  digit_to_display : Nat
deriving Repr, DecidableEq

/-- A call to the external actuator `display_on_screen`, recorded as the byte
buffer passed to it. -/
abbrev ActuatorCall := List Nat

/-- Result of `digit_to_display_show` (attribute get): the device after the
call, the bytes placed into the sysfs buffer, the actuator calls made, and
the returned byte count. -/
structure ShowResult where
  dev : SevenSegmentDev
  buf : List Nat
  actuator : List ActuatorCall
  ret : Int
deriving Repr, DecidableEq

/-- `digit_to_display_show` (source lines 74-77):
`sprintf(buf, "%c\n", '0' + seven_segment_devp->digit_to_display)`.
The function assigns nothing to the device and calls no actuator; `sprintf`
writes the digit character followed by a newline (byte 10) and returns 2. -/
def digit_to_display_show (dev : SevenSegmentDev) : ShowResult :=
  { dev := dev
    buf := [(48 + dev.digit_to_display) % 256, 10]
    actuator := []
    ret := 2 }

/-- Result of `digit_to_display_store` (attribute set) and of
`seven_segment_write`: the device after the call, the actuator calls made,
and the return value. -/
structure MutResult where
  dev : SevenSegmentDev
  actuator : List ActuatorCall
  ret : Int
deriving Repr, DecidableEq

/-- `digit_to_display_store` (source lines 79-87): accepts the first byte iff
`buf[0] - '0' < 10 && buf[0] - '0' >= 0`; on acceptance stores the difference
in the register and calls `display_on_screen(buf)`; always returns 1.
The `count` argument is received and ignored, as in the source. -/
def digit_to_display_store (dev : SevenSegmentDev) (buf : List Nat)
    (count : Nat) : MutResult :=
  let b0 : Int := buf.headD 0
  if b0 - 48 < 10 ∧ b0 - 48 ≥ 0 then
    { dev := { dev with digit_to_display := uchar (b0 - 48) }
      actuator := [buf]
      ret := 1 }
  else
    { dev := dev, actuator := [], ret := 1 }

/-- `copy_from_user(dst, src, n)` on success: the memory image starting at
`dst` after `n` bytes of `src` are copied over it. When `n` exceeds the
allocation behind `dst` the image is longer than the allocation — an
out-of-bounds write. -/
def copy_from_user (dst : List Nat) (src : List Nat) (n : Nat) : List Nat :=
  src.take n ++ dst.drop n

/-- `seven_segment_write` (source lines 151-164): zeroes the 1-byte scratch
buffer `message`, copies `count` caller bytes into it (returning `-EFAULT`,
i.e. -14, when the transport fails), then unconditionally stores
`message[0] - '0'` into the register, calls `display_on_screen(message)`, and
returns `count`. `copy_ok` models whether `copy_from_user` delivered the
bytes. -/
def seven_segment_write (dev : SevenSegmentDev) (buf : List Nat) (count : Nat)
    (copy_ok : Bool) : MutResult :=
  let message0 : List Nat := List.replicate USE_NUMBER_OF_DIGITS 0
  if copy_ok then
    let message := copy_from_user message0 buf count
    { dev := { dev with digit_to_display := uchar ((message.headD 0 : Int) - 48) }
      actuator := [message]
      ret := (count : Int) }
  else
    { dev := dev, actuator := [], ret := -14 }

/-- Result of `seven_segment_read`: the device after the call, the bytes
delivered to user space, the actuator calls made, and the return value. -/
structure ReadResult where
  dev : SevenSegmentDev
  bytes : List Nat
  actuator : List ActuatorCall
  ret : Int
deriving Repr, DecidableEq

/-- The `for` loop of `seven_segment_read` (source lines 139-147): starting
at offset `retval` with `k` iterations remaining, each iteration computes
`byte = '0' + digit` and attempts `put_user` at the current offset; a failed
`put_user` breaks the loop. Returns the delivered bytes and the final
`retval`. -/
def seven_segment_read_loop (digit : Nat) (put_user_ok : Nat → Bool) :
    Nat → Nat → List Nat × Nat
  | 0, retval => ([], retval)
  | k + 1, retval =>
    if put_user_ok retval then
      let r := seven_segment_read_loop digit put_user_ok k (retval + 1)
      (((48 + digit) % 256) :: r.1, r.2)
    else
      ([], retval)

/-- `seven_segment_read` (source lines 131-149): loops `retval` from 0 to
`count`, delivering the byte `48 + digit_to_display` at each offset via
`put_user`, breaking on the first refusal; returns `retval`. It assigns
nothing to the device and calls no actuator. -/
def seven_segment_read (dev : SevenSegmentDev) (put_user_ok : Nat → Bool)
    (count : Nat) : ReadResult :=
  let r := seven_segment_read_loop dev.digit_to_display put_user_ok count 0
  { dev := dev, bytes := r.1, actuator := [], ret := (r.2 : Int) }

/-- The kernel-visible resources the module can hold, one flag per resource:
the chrdev region, the registered class, the `kmalloc`ed device structure,
the added cdev, the created device node, and the `kmalloc`ed message
buffer. -/
structure KernelState where
  regionReserved : Bool
  classRegistered : Bool
  devpAllocated : Bool
  cdevAdded : Bool
  nodeCreated : Bool
  messageAllocated : Bool
deriving Repr, DecidableEq

/-- The state holding no resource at all. -/
def KernelState.empty : KernelState :=
  { regionReserved := false, classRegistered := false, devpAllocated := false
    cdevAdded := false, nodeCreated := false, messageAllocated := false }

/-- Acquisition and release calls made by init/exit, in program order. -/
inductive Action where
  | reserveRegion
  | registerClass
  | allocDevp
  | addCdev
  | createNode
  | allocMessage
  | unregisterRegion
  | destroyNode
  | destroyClass
  | deleteCdev
  | freeDevp
  | freeMessage
deriving Repr, DecidableEq

/-- Success oracles for the fallible kernel calls made by
`seven_segment_init`, in call order. `cdev_add_ret` is the value returned by
`cdev_add` (0 on success, a nonzero error code on failure), matching
`if ((ret = cdev_add(...)))` in the source. -/
structure InitEnv where
  alloc_chrdev_region_ok : Bool
  class_register_ok : Bool
  kmalloc_devp_ok : Bool
  cdev_add_ret : Int
  device_create_ok : Bool
  kmalloc_message_ok : Bool
deriving Repr, DecidableEq

/-- Result of `seven_segment_init`: the resources held afterwards, the device
structure if it was allocated, the trace of acquisition/release calls in
program order, and the return value. -/
structure InitResult where
  state : KernelState
  devp : Option SevenSegmentDev
  trace : List Action
  ret : Int
deriving Repr, DecidableEq

/-- `seven_segment_init` (source lines 167-226), call by call:
`alloc_chrdev_region` (failure: return -1); `class_register` (failure:
`unregister_chrdev_region`, return -EINVAL = -22); `kmalloc` of the device
structure (failure: return -ENOMEM = -12 with no release calls); the digit
register is set to 1 (the difference of the characters for 1 and 0);
`cdev_add` (failure: `device_destroy`,
`class_destroy`, `unregister_chrdev_region`, return the `cdev_add` error);
`device_create` (failure: `class_destroy`, `unregister_chrdev_region`,
return -1); `kmalloc` of the 1-byte message buffer, whose result is not
checked; return 0. -/
def seven_segment_init (env : InitEnv) : InitResult :=
  if ¬ env.alloc_chrdev_region_ok then
    { state := KernelState.empty, devp := none, trace := [], ret := -1 }
  else
    let s1 : KernelState := { KernelState.empty with regionReserved := true }
    if ¬ env.class_register_ok then
      { state := { s1 with regionReserved := false }
        devp := none
        trace := [Action.reserveRegion, Action.unregisterRegion]
        ret := -22 }
    else
      let s2 : KernelState := { s1 with classRegistered := true }
      if ¬ env.kmalloc_devp_ok then
        { state := s2
          devp := none
          trace := [Action.reserveRegion, Action.registerClass]
          ret := -12 }
      else
        let s3 : KernelState := { s2 with devpAllocated := true }
        let dev : SevenSegmentDev := { digit_to_display := uchar (49 - 48) }
        if env.cdev_add_ret = 0 then
          let s4 : KernelState := { s3 with cdevAdded := true }
          if ¬ env.device_create_ok then
            { state := { s4 with classRegistered := false, regionReserved := false }
              devp := some dev
              trace := [Action.reserveRegion, Action.registerClass, Action.allocDevp,
                        Action.addCdev, Action.destroyClass, Action.unregisterRegion]
              ret := -1 }
          else
            let s5 : KernelState := { s4 with nodeCreated := true }
            let s6 : KernelState := { s5 with messageAllocated := env.kmalloc_message_ok }
            { state := s6
              devp := some dev
              trace := [Action.reserveRegion, Action.registerClass, Action.allocDevp,
                        Action.addCdev, Action.createNode] ++
                       (if env.kmalloc_message_ok then [Action.allocMessage] else [])
              ret := 0 }
        else
          { state := { s3 with classRegistered := false, regionReserved := false }
            devp := some dev
            trace := [Action.reserveRegion, Action.registerClass, Action.allocDevp,
                      Action.destroyNode, Action.destroyClass, Action.unregisterRegion]
            ret := env.cdev_add_ret }

/-- `seven_segment_exit` (source lines 229-241), call by call:
`unregister_chrdev_region`, `kfree(seven_segment_devp)`, `device_destroy`,
`class_destroy`. The cdev is never deleted and the message buffer never
freed. -/
def seven_segment_exit (s : KernelState) : KernelState × List Action :=
  ({ s with regionReserved := false, devpAllocated := false,
            nodeCreated := false, classRegistered := false },
   [Action.unregisterRegion, Action.freeDevp, Action.destroyNode,
    Action.destroyClass])

/-- The kernel state after a fully successful `seven_segment_init`. -/
def activeState : KernelState :=
  { regionReserved := true, classRegistered := true, devpAllocated := true
    cdevAdded := true, nodeCreated := true, messageAllocated := true }

/-- C1: the claim fails on the code at the stream-write surface. With the
register holding 1, submitting the single non-digit byte 97 (lowercase a)
through `seven_segment_write` with a successful transport changes the
register to 49, invokes `display_on_screen`, and returns success (count 1):
`seven_segment_write` performs no validation at all. The attribute surface
does validate, rejecting the same byte with no state change, no actuator
call, and return 1 — so only the stream half of the claim is violated. -/
theorem write_nondigit_mutates_and_actuates :
    (seven_segment_write { digit_to_display := 1 } [97] 1 true).dev.digit_to_display = 49 ∧
    (seven_segment_write { digit_to_display := 1 } [97] 1 true).actuator = [[97]] ∧
    (seven_segment_write { digit_to_display := 1 } [97] 1 true).ret = 1 ∧
    (digit_to_display_store { digit_to_display := 1 } [97] 1).dev.digit_to_display = 1 ∧
    (digit_to_display_store { digit_to_display := 1 } [97] 1).actuator = [] ∧
    (digit_to_display_store { digit_to_display := 1 } [97] 1).ret = 1 := by
  decide

/-- C2: the digit-range invariant fails on the code. Starting from the
initialized register value 1, a single stream write of the non-digit byte 97
drives the stored `digit_to_display` to 49, outside [0,9]. -/
theorem register_escapes_decimal_range :
    ¬ (seven_segment_write { digit_to_display := 1 } [97] 1 true).dev.digit_to_display ≤ 9 := by
  decide

/-- C3: the unwind claim fails on the code. When the `kmalloc` of the device
structure fails (step 3, after the chrdev region and the class were
acquired), `seven_segment_init` returns -ENOMEM while still holding both the
region and the class: no release call is made on that path. -/
theorem init_kmalloc_failure_leaks_class_and_region :
    (seven_segment_init
      { alloc_chrdev_region_ok := true, class_register_ok := true,
        kmalloc_devp_ok := false, cdev_add_ret := 0,
        device_create_ok := true, kmalloc_message_ok := true }).ret = -12 ∧
    (seven_segment_init
      { alloc_chrdev_region_ok := true, class_register_ok := true,
        kmalloc_devp_ok := false, cdev_add_ret := 0,
        device_create_ok := true, kmalloc_message_ok := true }).state.classRegistered = true ∧
    (seven_segment_init
      { alloc_chrdev_region_ok := true, class_register_ok := true,
        kmalloc_devp_ok := false, cdev_add_ret := 0,
        device_create_ok := true, kmalloc_message_ok := true }).state.regionReserved = true ∧
    (seven_segment_init
      { alloc_chrdev_region_ok := true, class_register_ok := true,
        kmalloc_devp_ok := false, cdev_add_ret := 0,
        device_create_ok := true, kmalloc_message_ok := true }).trace =
      [Action.reserveRegion, Action.registerClass] := by
  decide

/-- C4: the reverse-order teardown claim fails on the code. On normal exit
from the fully active state the release trace is: unregister the chrdev
region first, then free the device structure, then destroy the device node,
then destroy the class — so the identity region is released before the class
is unregistered and before the node is destroyed, the device structure is
freed before the node is destroyed, the cdev is never deleted, and the
message buffer is never freed. -/
theorem exit_not_reverse_acquisition_order :
    (seven_segment_exit activeState).2 =
      [Action.unregisterRegion, Action.freeDevp, Action.destroyNode,
       Action.destroyClass] ∧
    (seven_segment_exit activeState).1.cdevAdded = true ∧
    (seven_segment_exit activeState).1.messageAllocated = true := by
  decide

/-- C5: `seven_segment_write` returns exactly the supplied `count` whenever
the transport delivers the bytes, returns -EFAULT (-14) exactly when the
transport fails, and that error value is distinct from the fixed success
value 1 that a validation rejection on the attribute surface reports. -/
theorem write_count_or_efault (dev : SevenSegmentDev) (buf : List Nat)
    (count c : Nat) :
    (seven_segment_write dev buf count true).ret = (count : Int) ∧
    (seven_segment_write dev buf count false).ret = -14 ∧
    (digit_to_display_store dev buf c).ret = 1 ∧
    (-14 : Int) < 1 := by
  refine ⟨rfl, rfl, ?_, by decide⟩
  simp only [digit_to_display_store]
  split <;> rfl

/-- C6: the one-byte-copy claim fails on the code. `seven_segment_write`
passes the full `count` to `copy_from_user`, so a write of the two bytes
"42" produces a two-byte memory image over the one-byte `message` buffer
(`USE_NUMBER_OF_DIGITS` = 1): an out-of-bounds write, and both caller bytes
reach `display_on_screen` rather than being ignored. -/
theorem write_copies_past_scratch_buffer :
    (copy_from_user (List.replicate USE_NUMBER_OF_DIGITS 0) [52, 50] 2).length = 2 ∧
    USE_NUMBER_OF_DIGITS = 1 ∧
    (seven_segment_write { digit_to_display := 1 } [52, 50] 2 true).actuator = [[52, 50]] ∧
    (seven_segment_write { digit_to_display := 1 } [52, 50] 2 true).dev.digit_to_display = 4 := by
  decide

/-- C9: `digit_to_display_store` returns the fixed success size 1 for every
device state, every input byte sequence (accepted or rejected), and every
count, including count 0. -/
theorem store_always_returns_one (dev : SevenSegmentDev) (buf : List Nat)
    (count : Nat) :
    (digit_to_display_store dev buf count).ret = 1 := by
  simp only [digit_to_display_store]
  split <;> rfl

/-- Helper: the final `retval` of the read loop equals the start offset plus
the number of bytes delivered. -/
theorem read_loop_ret (digit : Nat) (ok : Nat → Bool) :
    ∀ k r : Nat,
      (seven_segment_read_loop digit ok k r).2 =
        r + (seven_segment_read_loop digit ok k r).1.length := by
  intro k
  induction k with
  | zero => intro r; simp [seven_segment_read_loop]
  | succ k ih =>
    intro r
    by_cases h : ok r = true
    · simp only [seven_segment_read_loop, h, if_true, List.length_cons]
      rw [ih (r + 1)]
      omega
    · simp [seven_segment_read_loop, h]

/-- Helper: the read loop delivers at most as many bytes as it has
iterations left. -/
theorem read_loop_len_le (digit : Nat) (ok : Nat → Bool) :
    ∀ k r : Nat, (seven_segment_read_loop digit ok k r).1.length ≤ k := by
  intro k
  induction k with
  | zero => intro r; simp [seven_segment_read_loop]
  | succ k ih =>
    intro r
    by_cases h : ok r = true
    · simp only [seven_segment_read_loop, h, if_true, List.length_cons]
      exact Nat.succ_le_succ (ih (r + 1))
    · simp [seven_segment_read_loop, h]

/-- Helper: every byte the read loop delivers is the same current digit
character. -/
theorem read_loop_bytes (digit : Nat) (ok : Nat → Bool) :
    ∀ k r : Nat,
      (seven_segment_read_loop digit ok k r).1 =
        List.replicate (seven_segment_read_loop digit ok k r).1.length
          ((48 + digit) % 256) := by
  intro k
  induction k with
  | zero => intro r; simp [seven_segment_read_loop]
  | succ k ih =>
    intro r
    by_cases h : ok r = true
    · simp only [seven_segment_read_loop, h, if_true, List.length_cons,
        List.replicate_succ, List.cons.injEq, true_and]
      exact ih (r + 1)
    · simp [seven_segment_read_loop, h]

/-- Helper: the read loop stops early only at an offset where `put_user`
refused the byte. -/
theorem read_loop_stop (digit : Nat) (ok : Nat → Bool) :
    ∀ k r : Nat,
      (seven_segment_read_loop digit ok k r).1.length = k ∨
        ok (seven_segment_read_loop digit ok k r).2 = false := by
  intro k
  induction k with
  | zero => intro r; left; simp [seven_segment_read_loop]
  | succ k ih =>
    intro r
    by_cases h : ok r = true
    · simp only [seven_segment_read_loop, h, if_true, List.length_cons]
      rcases ih (r + 1) with h1 | h1
      · left; omega
      · right; exact h1
    · right
      simp only [seven_segment_read_loop, h, if_false]
      simpa using h

/-- C8: `seven_segment_read` delivers up to `count` bytes, each equal to the
current digit character `(48 + digit) % 256`; the returned value equals the
number of bytes delivered (a nonnegative count, never an error); and the
delivery stops short of `count` only at an offset where `put_user` refused
the byte. -/
theorem read_up_to_count_same_byte (dev : SevenSegmentDev)
    (put_user_ok : Nat → Bool) (count : Nat) :
    (seven_segment_read dev put_user_ok count).ret =
      ((seven_segment_read dev put_user_ok count).bytes.length : Int) ∧
    (seven_segment_read dev put_user_ok count).bytes.length ≤ count ∧
    (seven_segment_read dev put_user_ok count).bytes =
      List.replicate (seven_segment_read dev put_user_ok count).bytes.length
        ((48 + dev.digit_to_display) % 256) ∧
    ((seven_segment_read dev put_user_ok count).bytes.length = count ∨
      put_user_ok (seven_segment_read dev put_user_ok count).bytes.length = false) ∧
    0 ≤ (seven_segment_read dev put_user_ok count).ret := by
  have hret := read_loop_ret dev.digit_to_display put_user_ok count 0
  have hle := read_loop_len_le dev.digit_to_display put_user_ok count 0
  have hbytes := read_loop_bytes dev.digit_to_display put_user_ok count 0
  have hstop := read_loop_stop dev.digit_to_display put_user_ok count 0
  simp only [seven_segment_read]
  refine ⟨?_, hle, hbytes, ?_, ?_⟩
  · rw [hret]; simp
  · rcases hstop with h | h
    · exact Or.inl h
    · right
      rw [hret] at h
      simpa using h
  · rw [hret]
    positivity

/-- C7: for every digit d in 0..9, after submitting the character `48 + d`
through either mutation surface (stream write with the transport succeeding,
or attribute set), the register holds d, a stream read of one byte yields
`[48 + d]`, and the attribute get yields the character `48 + d` followed by
a newline. -/
theorem digit_roundtrip_both_surfaces (dev : SevenSegmentDev) (d : Nat)
    (h : d ≤ 9) :
    (seven_segment_write dev [48 + d] 1 true).dev.digit_to_display = d ∧
    (seven_segment_read (seven_segment_write dev [48 + d] 1 true).dev
        (fun _ => true) 1).bytes = [48 + d] ∧
    (digit_to_display_show (seven_segment_write dev [48 + d] 1 true).dev).buf =
      [48 + d, 10] ∧
    (digit_to_display_store dev [48 + d] 1).dev.digit_to_display = d ∧
    (seven_segment_read (digit_to_display_store dev [48 + d] 1).dev
        (fun _ => true) 1).bytes = [48 + d] ∧
    (digit_to_display_show (digit_to_display_store dev [48 + d] 1).dev).buf =
      [48 + d, 10] := by
  interval_cases d <;>
    simp [seven_segment_write, seven_segment_read, seven_segment_read_loop,
      digit_to_display_store, digit_to_display_show, copy_from_user, uchar,
      USE_NUMBER_OF_DIGITS]

/-- Witness for C7 at the concrete digit 3 and initial register value 1. -/
theorem digit_roundtrip_both_surfaces_witness :
    (seven_segment_write { digit_to_display := 1 } [48 + 3] 1 true).dev.digit_to_display = 3 ∧
    (seven_segment_read (seven_segment_write { digit_to_display := 1 } [48 + 3] 1 true).dev
        (fun _ => true) 1).bytes = [48 + 3] ∧
    (digit_to_display_show
        (seven_segment_write { digit_to_display := 1 } [48 + 3] 1 true).dev).buf =
      [48 + 3, 10] ∧
    (digit_to_display_store { digit_to_display := 1 } [48 + 3] 1).dev.digit_to_display = 3 ∧
    (seven_segment_read (digit_to_display_store { digit_to_display := 1 } [48 + 3] 1).dev
        (fun _ => true) 1).bytes = [48 + 3] ∧
    (digit_to_display_show
        (digit_to_display_store { digit_to_display := 1 } [48 + 3] 1).dev).buf =
      [48 + 3, 10] :=
  digit_roundtrip_both_surfaces { digit_to_display := 1 } 3 (by decide)

/-- C10: the read operations are pure observers: `seven_segment_read` and
`digit_to_display_show` return the device unchanged and make no actuator
call, for every device state, transport oracle and count. -/
theorem reads_are_pure_observers (dev : SevenSegmentDev)
    (put_user_ok : Nat → Bool) (count : Nat) :
    (seven_segment_read dev put_user_ok count).dev = dev ∧
    (seven_segment_read dev put_user_ok count).actuator = [] ∧
    (digit_to_display_show dev).dev = dev ∧
    (digit_to_display_show dev).actuator = [] :=
  ⟨rfl, rfl, rfl, rfl⟩

end SevenSegment
